import Mathlib

/-!
Verification of the steel-plate weight/geometry program (src/teste12.py).

The program computes the weight of a rectangular steel plate from its
dimensions and a steel grade's density, builds an 8-vertex / 12-triangle
box mesh, exports a DXF outline of the bottom face, and converts the mesh
to a Plotly surface.  Numeric values are modelled as exact rationals ℚ;
numpy arrays are modelled as Lean lists, and numpy indexing (which raises
on out-of-bounds access) is modelled with `Option`-valued lookups.
-/

/-- A 3D point, as stored in one row of the numpy `vertices` array. -/
abbrev Vec3 : Type := ℚ × ℚ × ℚ

/-- The zero vector, as produced by `np.zeros`. -/
def zeroVec : Vec3 := (0, 0, 0)

/-- `calculate_volume(width, length, thickness)`:
returns `width * length * thickness` (mm³). -/
def calculate_volume (width length thickness : ℚ) : ℚ :=
  width * length * thickness

/-- `calculate_weight(volume, density)`:
converts the volume from mm³ to cm³ by dividing by 1000, then multiplies
by the density, giving grams. -/
def calculate_weight (volume density : ℚ) : ℚ :=
  (volume / 1000) * density

/-- The weight in kg reported to the user on the generate action:
`calculate_weight(calculate_volume(...), density) / 1000` (line 138). -/
def reported_weight_kg (width length thickness density : ℚ) : ℚ :=
  calculate_weight (calculate_volume width length thickness) density / 1000

/-- The `vertices` array built by `create_plate`. -/
def create_plate_vertices (width length thickness : ℚ) : List Vec3 :=
  [ (0, 0, 0),
    (width, 0, 0),
    (width, length, 0),
    (0, length, 0),
    (0, 0, thickness),
    (width, 0, thickness),
    (width, length, thickness),
    (0, length, thickness) ]

/-- The constant `faces` array of `create_plate`: 12 triples of vertex
indices (bottom, top, and the four side faces, two triangles each). -/
def plate_faces : List (List ℕ) :=
  [ [0, 3, 1], [1, 3, 2],
    [4, 5, 7], [5, 6, 7],
    [0, 1, 4], [1, 5, 4],
    [1, 2, 5], [2, 6, 5],
    [2, 3, 6], [3, 7, 6],
    [3, 0, 7], [0, 4, 7] ]

/-- One row-filling pass of the `create_plate` loop body: for
`j in range(3)` it stores `vertices[face[j]]` into slot `j` of the row.
Out-of-bounds numpy indexing raises, modelled by `Option`. -/
def fillRow (vertices : List Vec3) (face : List ℕ) (row : List Vec3) :
    Option (List Vec3) :=
  (List.range 3).foldlM
    (fun r j => do
      let idx ← face.get? j
      let v ← vertices.get? idx
      pure (r.set j v))
    row

/-- The fill loop of `create_plate`: starting from the zero-initialised
`mesh.Mesh(np.zeros(faces.shape[0]))`, for each `(i, face)` in
`enumerate(faces)` it overwrites row `i` of `vectors` with the three
points `vertices[face[j]]`, `j in range(3)`. -/
def fillMesh (vertices : List Vec3) (faces : List (List ℕ)) :
    Option (List (List Vec3)) :=
  faces.enum.foldlM
    (fun m p => do
      let newRow ← fillRow vertices p.2 (m.getD p.1 [])
      pure (m.set p.1 newRow))
    (List.replicate faces.length (List.replicate 3 zeroVec))

/-- `create_plate`'s mesh result: the 12 triangles of the plate, each a
row of three 3D points. -/
def create_plate_mesh (width length thickness : ℚ) :
    Option (List (List Vec3)) :=
  fillMesh (create_plate_vertices width length thickness) plate_faces

/-- C1: The weight pipeline: composing `calculate_weight` with
`calculate_volume` gives `((w*l*t)/1000)*d` grams, and the kg value
reported to the user is that divided by 1000, i.e. `w*l*t*d/1_000_000`. -/
theorem weight_pipeline (w l t d : ℚ)
    (hw : 0 ≤ w) (hl : 0 ≤ l) (ht : 0 ≤ t) :
    calculate_weight (calculate_volume w l t) d = ((w * l * t) / 1000) * d ∧
    reported_weight_kg w l t d = w * l * t * d / 1000000 := by
  constructor
  · rfl
  · unfold reported_weight_kg calculate_weight calculate_volume
    ring

/-- Witness for `weight_pipeline` at (100, 100, 10, 7.85). -/
theorem weight_pipeline_witness :
    (0:ℚ) ≤ 100 ∧ (0:ℚ) ≤ 100 ∧ (0:ℚ) ≤ 10 ∧
    (calculate_weight (calculate_volume 100 100 10) (785/100)
        = ((100 * 100 * 10) / 1000) * (785/100) ∧
      reported_weight_kg 100 100 10 (785/100)
        = 100 * 100 * 10 * (785/100) / 1000000) := by
  refine ⟨by norm_num, by norm_num, by norm_num, ?_⟩
  exact weight_pipeline 100 100 10 (785/100) (by norm_num) (by norm_num)
    (by norm_num)

/-- C2: `calculate_volume` returns exactly `width * length * thickness` and
`calculate_weight` returns exactly `(volume / 1000) * density`. -/
theorem calc_defs_exact (w l t v d : ℚ)
    (hw : 0 ≤ w) (hl : 0 ≤ l) (ht : 0 ≤ t) :
    calculate_volume w l t = w * l * t ∧
    calculate_weight v d = (v / 1000) * d := ⟨rfl, rfl⟩

/-- Witness for `calc_defs_exact` at (50, 20, 5, 5000, 8). -/
theorem calc_defs_exact_witness :
    (0:ℚ) ≤ 50 ∧ (0:ℚ) ≤ 20 ∧ (0:ℚ) ≤ 5 ∧
    (calculate_volume 50 20 5 = 50 * 20 * 5 ∧
      calculate_weight 5000 8 = (5000 / 1000) * 8) :=
  ⟨by norm_num, by norm_num, by norm_num,
    calc_defs_exact 50 20 5 5000 8 (by norm_num) (by norm_num) (by norm_num)⟩

/-- C8: Zero thickness gives zero volume, and zero volume gives zero weight
for every density. -/
theorem zero_thickness_zero_weight (w l : ℚ) (hw : 0 ≤ w) (hl : 0 ≤ l) :
    calculate_volume w l 0 = 0 ∧ ∀ d : ℚ, calculate_weight 0 d = 0 := by
  constructor
  · unfold calculate_volume; ring
  · intro d; unfold calculate_weight; ring

/-- Witness for `zero_thickness_zero_weight` at (100, 100). -/
theorem zero_thickness_zero_weight_witness :
    (0:ℚ) ≤ 100 ∧ (0:ℚ) ≤ 100 ∧
    (calculate_volume 100 100 0 = 0 ∧
      ∀ d : ℚ, calculate_weight 0 d = 0) :=
  ⟨by norm_num, by norm_num,
    zero_thickness_zero_weight 100 100 (by norm_num) (by norm_num)⟩

/-- The value the fill loop actually produces: the 12 triangles of the
plate written out, triangle `i` holding the three vertices named by
`plate_faces[i]`. -/
def plate_mesh_explicit (w l t : ℚ) : List (List Vec3) :=
  [ [(0, 0, 0), (0, l, 0), (w, 0, 0)],
    [(w, 0, 0), (0, l, 0), (w, l, 0)],
    [(0, 0, t), (w, 0, t), (0, l, t)],
    [(w, 0, t), (w, l, t), (0, l, t)],
    [(0, 0, 0), (w, 0, 0), (0, 0, t)],
    [(w, 0, 0), (w, 0, t), (0, 0, t)],
    [(w, 0, 0), (w, l, 0), (w, 0, t)],
    [(w, l, 0), (w, l, t), (w, 0, t)],
    [(w, l, 0), (0, l, 0), (w, l, t)],
    [(0, l, 0), (0, l, t), (w, l, t)],
    [(0, l, 0), (0, 0, 0), (0, l, t)],
    [(0, 0, 0), (0, 0, t), (0, l, t)] ]

set_option maxHeartbeats 1000000 in
/-- The fill loop succeeds (no numpy index error) and produces exactly
the triangles of `plate_mesh_explicit`. -/
theorem create_plate_mesh_eq (w l t : ℚ) :
    create_plate_mesh w l t = some (plate_mesh_explicit w l t) := rfl

/-- C3: `create_plate` builds exactly the 8 box corners, in order
`(0,0,0),(w,0,0),(w,l,0),(0,l,0),(0,0,t),(w,0,t),(w,l,t),(0,l,t)`:
vertices 0–3 lie at z = 0 (bottom face) and vertices 4–7 at
z = t (top face). -/
theorem plate_vertices_spec (w l t : ℚ) :
    create_plate_vertices w l t =
      [(0, 0, 0), (w, 0, 0), (w, l, 0), (0, l, 0),
        (0, 0, t), (w, 0, t), (w, l, t), (0, l, t)] ∧
    (create_plate_vertices w l t).length = 8 ∧
    (∀ i, i < 4 → ((create_plate_vertices w l t).getD i zeroVec).2.2 = 0) ∧
    (∀ i, 4 ≤ i → i < 8 →
      ((create_plate_vertices w l t).getD i zeroVec).2.2 = t) := by
  refine ⟨rfl, rfl, ?_, ?_⟩
  · intro i hi
    interval_cases i <;> rfl
  · intro i hi hi8
    interval_cases i <;> rfl

/-- C9: `create_plate` is deterministic: two calls with identical
width, length and thickness yield identical vertex arrays and identical
mesh (triangle) arrays. -/
theorem create_plate_deterministic (w l t w' l' t' : ℚ)
    (hw : w = w') (hl : l = l') (ht : t = t') :
    create_plate_vertices w l t = create_plate_vertices w' l' t' ∧
    create_plate_mesh w l t = create_plate_mesh w' l' t' := by
  subst hw; subst hl; subst ht
  exact ⟨rfl, rfl⟩

/-- Witness for `create_plate_deterministic` at (100, 100, 10). -/
theorem create_plate_deterministic_witness :
    (100:ℚ) = 100 ∧ (100:ℚ) = 100 ∧ (10:ℚ) = 10 ∧
    (create_plate_vertices 100 100 10 = create_plate_vertices 100 100 10 ∧
      create_plate_mesh 100 100 10 = create_plate_mesh 100 100 10) :=
  ⟨rfl, rfl, rfl, create_plate_deterministic 100 100 10 100 100 10 rfl rfl rfl⟩

/-- C10: every vertex index in the `faces` array is `< 8`, the vertex
array always has exactly 8 entries, and therefore the lookup
`vertices[face[j]]` in the fill loop never goes out of bounds: the
fill loop succeeds (`isSome`) for every input. -/
theorem faces_indices_in_bounds :
    (∀ face ∈ plate_faces, ∀ idx ∈ face, idx < 8) ∧
    (∀ w l t : ℚ, (create_plate_vertices w l t).length = 8 ∧
      (fillMesh (create_plate_vertices w l t) plate_faces).isSome = true) := by
  constructor
  · decide
  · intro w l t
    exact ⟨rfl, rfl⟩

/-- C5: the mesh produced by `create_plate` has exactly 12 triangles,
and for every triangle `i < 12` and slot `j < 3` the stored point is
`vertices[faces[i][j]]` — each triangle carries its three vertex
coordinates in the face's defined order. -/
theorem mesh_triangles_spec (w l t : ℚ) :
    ∃ m, create_plate_mesh w l t = some m ∧ m.length = 12 ∧
      ∀ i, i < 12 → ∀ j, j < 3 →
        (m.getD i []).getD j zeroVec =
          (create_plate_vertices w l t).getD
            ((plate_faces.getD i []).getD j 0) zeroVec := by
  refine ⟨plate_mesh_explicit w l t, create_plate_mesh_eq w l t, rfl, ?_⟩
  intro i hi j hj
  interval_cases i <;> interval_cases j <;> rfl

/-- `create_dxf_from_numpy`'s geometric content: for `i in range(4)` it
adds a line from `vertices[i]` to `vertices[(i+1) % 4]`, keeping only
the X,Y coordinates (`[:2]`) of each 3D point. -/
def create_dxf_lines (vertices : List Vec3) :
    Option (List ((ℚ × ℚ) × (ℚ × ℚ))) :=
  (List.range 4).mapM (fun i => do
    let s ← vertices.get? i
    let e ← vertices.get? ((i + 1) % 4)
    pure ((s.1, s.2.1), (e.1, e.2.1)))

/-- C6: on any vertex array produced by `create_plate`, the DXF export
emits exactly 4 segments, segment `n` joining the X,Y coordinates of
vertex `n` to those of vertex `(n+1) % 4`; consecutive segments chain
cyclically (a closed loop), and the loop is exactly the bottom-face
rectangle `(0,0) → (w,0) → (w,l) → (0,l) → (0,0)`. -/
theorem dxf_outline_spec (w l t : ℚ) :
    ∃ ls, create_dxf_lines (create_plate_vertices w l t) = some ls ∧
      ls.length = 4 ∧
      (∀ n, n < 4 →
        ls.getD n ((0, 0), (0, 0)) =
          ((((create_plate_vertices w l t).getD n zeroVec).1,
            ((create_plate_vertices w l t).getD n zeroVec).2.1),
            (((create_plate_vertices w l t).getD ((n + 1) % 4) zeroVec).1,
            ((create_plate_vertices w l t).getD ((n + 1) % 4) zeroVec).2.1))) ∧
      (∀ n, n < 4 →
        (ls.getD n ((0, 0), (0, 0))).2 =
          (ls.getD ((n + 1) % 4) ((0, 0), (0, 0))).1) ∧
      ls = [((0, 0), (w, 0)), ((w, 0), (w, l)),
        ((w, l), (0, l)), ((0, l), (0, 0))] := by
  refine ⟨[((0, 0), (w, 0)), ((w, 0), (w, l)),
    ((w, l), (0, l)), ((0, l), (0, 0))], rfl, rfl, ?_, ?_, rfl⟩
  · intro n hn
    interval_cases n <;> rfl
  · intro n hn
    interval_cases n <;> rfl

/-- The data handed to `go.Mesh3d` by `mesh_to_plotly`: the flattened
coordinate sequences, the three index lists, and the opacity. -/
structure PlotlyMesh where
  x : List ℚ
  y : List ℚ
  z : List ℚ
  i : List ℕ
  j : List ℕ
  k : List ℕ
  opacity : ℚ

/-- Python `range(start, stop, step)` for a positive step. -/
def pyRange (start stop step : ℕ) : List ℕ :=
  (List.range ((stop - start + step - 1) / step)).map
    (fun n => start + n * step)

/-- `mesh_to_plotly`: flattens `plate_mesh.vectors` (`reshape(-1,3).T`)
into the parallel coordinate lists x, y, z and builds the index lists
`i = range(0, len(x), 3)`, `j = range(1, len(y), 3)`,
`k = range(2, len(z), 3)`. -/
def mesh_to_plotly (m : List (List Vec3)) (opacity_value : ℚ) : PlotlyMesh :=
  let flat := m.flatten
  ⟨flat.map (fun v => v.1),
    flat.map (fun v => v.2.1),
    flat.map (fun v => v.2.2),
    pyRange 0 (flat.map (fun v => v.1)).length 3,
    pyRange 1 (flat.map (fun v => v.2.1)).length 3,
    pyRange 2 (flat.map (fun v => v.2.2)).length 3,
    opacity_value⟩

/-- C7: on the mesh produced by `create_plate`, `mesh_to_plotly` yields
x, y, z lists of 36 entries (one per per-triangle vertex, not
deduplicated) and index lists i, j, k of length 12 with
`(i[n], j[n], k[n]) = (3n, 3n+1, 3n+2)`, so Plotly triangle `n`
references exactly the three flattened vertices of mesh triangle `n`,
in the face's order. -/
theorem plotly_mesh_spec (w l t op : ℚ) :
    ∃ m, create_plate_mesh w l t = some m ∧
      (mesh_to_plotly m op).x.length = 36 ∧
      (mesh_to_plotly m op).y.length = 36 ∧
      (mesh_to_plotly m op).z.length = 36 ∧
      (mesh_to_plotly m op).i.length = 12 ∧
      (mesh_to_plotly m op).j.length = 12 ∧
      (mesh_to_plotly m op).k.length = 12 ∧
      ∀ n, n < 12 →
        (mesh_to_plotly m op).i.getD n 0 = 3 * n ∧
        (mesh_to_plotly m op).j.getD n 0 = 3 * n + 1 ∧
        (mesh_to_plotly m op).k.getD n 0 = 3 * n + 2 ∧
        ((mesh_to_plotly m op).x.getD (3 * n) 0,
          (mesh_to_plotly m op).y.getD (3 * n) 0,
          (mesh_to_plotly m op).z.getD (3 * n) 0) =
            (m.getD n []).getD 0 zeroVec ∧
        ((mesh_to_plotly m op).x.getD (3 * n + 1) 0,
          (mesh_to_plotly m op).y.getD (3 * n + 1) 0,
          (mesh_to_plotly m op).z.getD (3 * n + 1) 0) =
            (m.getD n []).getD 1 zeroVec ∧
        ((mesh_to_plotly m op).x.getD (3 * n + 2) 0,
          (mesh_to_plotly m op).y.getD (3 * n + 2) 0,
          (mesh_to_plotly m op).z.getD (3 * n + 2) 0) =
            (m.getD n []).getD 2 zeroVec := by
  refine ⟨plate_mesh_explicit w l t, create_plate_mesh_eq w l t,
    rfl, rfl, rfl, ?_, ?_, ?_, ?_⟩
  · simp [mesh_to_plotly, pyRange, plate_mesh_explicit]
  · simp [mesh_to_plotly, pyRange, plate_mesh_explicit]
  · simp [mesh_to_plotly, pyRange, plate_mesh_explicit]
  · intro n hn
    interval_cases n <;>
      refine ⟨?_, ?_, ?_, rfl, rfl, rfl⟩ <;>
      simp [mesh_to_plotly, pyRange, plate_mesh_explicit]

/-- Componentwise difference of two 3D points (an edge vector). -/
def vsub (a b : Vec3) : Vec3 :=
  (a.1 - b.1, a.2.1 - b.2.1, a.2.2 - b.2.2)

/-- The 3D cross product. -/
def cross (a b : Vec3) : Vec3 :=
  (a.2.1 * b.2.2 - a.2.2 * b.2.1,
    a.2.2 * b.1 - a.1 * b.2.2,
    a.1 * b.2.1 - a.2.1 * b.1)

/-- The (unnormalised) normal of triangle `i` of the plate: the cross
product of the two edge vectors taken in the face's listed vertex
order, `(v_b - v_a) × (v_c - v_a)` for face `[a, b, c]`. -/
def faceNormal (w l t : ℚ) (i : ℕ) : Vec3 :=
  let vs := create_plate_vertices w l t
  let f := plate_faces.getD i []
  let a := vs.getD (f.getD 0 0) zeroVec
  let b := vs.getD (f.getD 1 0) zeroVec
  let c := vs.getD (f.getD 2 0) zeroVec
  cross (vsub b a) (vsub c a)

/-- C4: for positive dimensions every one of the 12 faces is wound for
an outward normal: the two bottom triangles (faces 0, 1) have normals
pointing straight down, the two top triangles (2, 3) straight up, and
the side triangles point away from the box along the axis of their
side: −y for faces 4, 5 (the y = 0 side), +x for 6, 7 (x = w),
+y for 8, 9 (y = l), −x for 10, 11 (x = 0). -/
theorem faces_wound_outward (w l t : ℚ)
    (hw : 0 < w) (hl : 0 < l) (ht : 0 < t) :
    (∀ i, i = 0 ∨ i = 1 → (faceNormal w l t i).1 = 0 ∧
      (faceNormal w l t i).2.1 = 0 ∧ (faceNormal w l t i).2.2 < 0) ∧
    (∀ i, i = 2 ∨ i = 3 → (faceNormal w l t i).1 = 0 ∧
      (faceNormal w l t i).2.1 = 0 ∧ 0 < (faceNormal w l t i).2.2) ∧
    (∀ i, i = 4 ∨ i = 5 → (faceNormal w l t i).1 = 0 ∧
      (faceNormal w l t i).2.1 < 0 ∧ (faceNormal w l t i).2.2 = 0) ∧
    (∀ i, i = 6 ∨ i = 7 → 0 < (faceNormal w l t i).1 ∧
      (faceNormal w l t i).2.1 = 0 ∧ (faceNormal w l t i).2.2 = 0) ∧
    (∀ i, i = 8 ∨ i = 9 → (faceNormal w l t i).1 = 0 ∧
      0 < (faceNormal w l t i).2.1 ∧ (faceNormal w l t i).2.2 = 0) ∧
    (∀ i, i = 10 ∨ i = 11 → (faceNormal w l t i).1 < 0 ∧
      (faceNormal w l t i).2.1 = 0 ∧ (faceNormal w l t i).2.2 = 0) := by
  refine ⟨?_, ?_, ?_, ?_, ?_, ?_⟩ <;>
    rintro i (rfl | rfl) <;>
    refine ⟨?_, ?_, ?_⟩ <;>
    simp [faceNormal, cross, vsub, create_plate_vertices, plate_faces,
      zeroVec] <;>
    nlinarith [mul_pos hw hl, mul_pos hw ht, mul_pos hl ht]

/-- Witness for `faces_wound_outward` at (100, 100, 10). -/
theorem faces_wound_outward_witness :
    (0:ℚ) < 100 ∧ (0:ℚ) < 100 ∧ (0:ℚ) < 10 ∧
    ((∀ i, i = 0 ∨ i = 1 → (faceNormal 100 100 10 i).1 = 0 ∧
        (faceNormal 100 100 10 i).2.1 = 0 ∧
        (faceNormal 100 100 10 i).2.2 < 0) ∧
      (∀ i, i = 2 ∨ i = 3 → (faceNormal 100 100 10 i).1 = 0 ∧
        (faceNormal 100 100 10 i).2.1 = 0 ∧
        0 < (faceNormal 100 100 10 i).2.2) ∧
      (∀ i, i = 4 ∨ i = 5 → (faceNormal 100 100 10 i).1 = 0 ∧
        (faceNormal 100 100 10 i).2.1 < 0 ∧
        (faceNormal 100 100 10 i).2.2 = 0) ∧
      (∀ i, i = 6 ∨ i = 7 → 0 < (faceNormal 100 100 10 i).1 ∧
        (faceNormal 100 100 10 i).2.1 = 0 ∧
        (faceNormal 100 100 10 i).2.2 = 0) ∧
      (∀ i, i = 8 ∨ i = 9 → (faceNormal 100 100 10 i).1 = 0 ∧
        0 < (faceNormal 100 100 10 i).2.1 ∧
        (faceNormal 100 100 10 i).2.2 = 0) ∧
      (∀ i, i = 10 ∨ i = 11 → (faceNormal 100 100 10 i).1 < 0 ∧
        (faceNormal 100 100 10 i).2.1 = 0 ∧
        (faceNormal 100 100 10 i).2.2 = 0)) :=
  ⟨by norm_num, by norm_num, by norm_num,
    faces_wound_outward 100 100 10 (by norm_num) (by norm_num)
      (by norm_num)⟩
